import Mathlib

/-!
Shallow embedding of the core logic of src/streamlit_app.py (a Matomo
analytics dashboard): the period comparator (generate_comparison_summary,
compare_csv_data), the event-table normalizer (fetch_event_data) and the
JSON-backed report store (load_reports, save_reports, the append and
markdown-export paths of documentation_page).

Machine floats produced by Python and numpy arithmetic are modelled by the
type PFloat below: a finite rational, a signed infinity, or NaN.  The
concrete values arising in the program (integer counts and ratios of them)
are exactly representable, so rational arithmetic coincides with the float
arithmetic of the source on every input considered here.
-/

namespace MatomoApp

/-- Model of a Python/numpy double as used by the comparator: a finite
rational value, positive or negative infinity, or NaN. -/
inductive PFloat where
  | finite (q : ℚ)
  | posInf
  | negInf
  | nan
deriving DecidableEq

/-- Numpy true division n / d: finite quotient when d is nonzero; when d = 0
numpy yields +inf, -inf or NaN according to the sign of the numerator
(it warns but does not raise). -/
def qdivF (n d : ℚ) : PFloat :=
  if d = 0 then (if 0 < n then .posInf else if n < 0 then .negInf else .nan)
  else .finite (n / d)

/-- Multiplication of a float by the positive constant 100, as in the
percent-change formulas: infinities and NaN are preserved. -/
def mul100F : PFloat → PFloat
  | .finite q => .finite (q * 100)
  | .posInf => .posInf
  | .negInf => .negInf
  | .nan => .nan

/-- Pandas Series.fillna(0) applied to one float entry: NaN becomes 0,
everything else (including infinities) is kept. -/
def fillna0 : PFloat → PFloat
  | .nan => .finite 0
  | p => p

/-- Percent change of one merged row as computed at
src/streamlit_app.py:135-136: (count2 - count1) / count1 * 100 followed by
fillna(0).  With count1 = 0 the division yields an infinity (or NaN when
count2 - count1 is also 0, which fillna turns into 0). -/
def pandasPercentChange (c1 c2 : ℚ) : PFloat :=
  fillna0 (mul100F (qdivF (c2 - c1) c1))

/-- Percent change as computed by generate_comparison_summary
(src/streamlit_app.py:81): a guarded expression that returns the float
value inf when the period-1 count is zero. -/
def summaryPercentChange (c1 c2 : ℚ) : PFloat :=
  if c1 ≠ 0 then .finite ((c2 - c1) / c1 * 100) else .posInf

/-- Absolute change of generate_comparison_summary
(src/streamlit_app.py:82): count2 - count1. -/
def summaryAbsChange (c1 c2 : ℚ) : ℚ := c2 - c1

/-- Python abs on a float: abs of either infinity is +inf, abs of NaN is
NaN. -/
def pabs : PFloat → PFloat
  | .finite q => .finite |q|
  | .posInf => .posInf
  | .negInf => .posInf
  | .nan => .nan

/-- Comparison p < b of a float against a finite rational bound, with IEEE
semantics: +inf < b and NaN < b are false, -inf < b is true. -/
def pltQ : PFloat → ℚ → Bool
  | .finite q, b => decide (q < b)
  | .posInf, _ => false
  | .negInf, _ => true
  | .nan, _ => false

/-- Magnitude classification of generate_comparison_summary
(src/streamlit_app.py:91-98): the if/elif chain over abs(percent_change). -/
def magnitude (p : PFloat) : String :=
  if pltQ (pabs p) 10 then "slightly"
  else if pltQ (pabs p) 30 then "moderately"
  else if pltQ (pabs p) 50 then "significantly"
  else "dramatically"

lemma magnitude_finite (p : ℚ) :
    magnitude (PFloat.finite p) =
      (if |p| < 10 then "slightly"
       else if |p| < 30 then "moderately"
       else if |p| < 50 then "significantly"
       else "dramatically") := by
  simp [magnitude, pabs, pltQ]

/-- Claim C2: for a comparison row with countPeriod1 = 0 and
countPeriod2 > 0, the comparator produces absoluteChange = countPeriod2, and
both percent-change computations (the guarded one in
generate_comparison_summary and the pandas pipeline of compare_csv_data)
flag the percent change as infinite rather than returning any finite
numeric value, zero included; both are total functions, so no error is
raised. -/
theorem c2_zero_base_flagged_infinite (c1 c2 : ℚ) (h1 : c1 = 0) (h2 : 0 < c2) :
    summaryAbsChange c1 c2 = c2 ∧
    summaryPercentChange c1 c2 = PFloat.posInf ∧
    pandasPercentChange c1 c2 = PFloat.posInf ∧
    (∀ q : ℚ, summaryPercentChange c1 c2 ≠ PFloat.finite q) ∧
    (∀ q : ℚ, pandasPercentChange c1 c2 ≠ PFloat.finite q) := by
  subst h1
  have hps : summaryPercentChange 0 c2 = PFloat.posInf := by
    simp [summaryPercentChange]
  have hpp : pandasPercentChange 0 c2 = PFloat.posInf := by
    simp [pandasPercentChange, qdivF, h2, mul100F, fillna0]
  refine ⟨by simp [summaryAbsChange], hps, hpp, ?_, ?_⟩
  · intro q; rw [hps]; exact fun h => PFloat.noConfusion h
  · intro q; rw [hpp]; exact fun h => PFloat.noConfusion h

/-- Witness for C2 at the concrete row count1 = 0, count2 = 10 from the
specification. -/
theorem c2_zero_base_flagged_infinite_witness :
    summaryAbsChange 0 10 = 10 ∧
    summaryPercentChange 0 10 = PFloat.posInf ∧
    pandasPercentChange 0 10 = PFloat.posInf := by
  have h := c2_zero_base_flagged_infinite 0 10 rfl (by norm_num)
  exact ⟨h.1, h.2.1, h.2.2.1⟩

/-- Claim C9: when the base-period count is 0 and the second-period count is
positive, generate_comparison_summary assigns percent change +inf, and the
magnitude chain classifies it as dramatically (every abs comparison against
a finite bound is false for +inf, so the final else branch is taken). -/
theorem c9_zero_base_dramatically (c1 c2 : ℚ) (h1 : c1 = 0) (h2 : 0 < c2) :
    summaryPercentChange c1 c2 = PFloat.posInf ∧
    magnitude (summaryPercentChange c1 c2) = "dramatically" := by
  subst h1
  have hps : summaryPercentChange 0 c2 = PFloat.posInf := by
    simp [summaryPercentChange]
  refine ⟨hps, ?_⟩
  rw [hps]
  simp [magnitude, pabs, pltQ]

/-- Witness for C9 at the concrete row count1 = 0, count2 = 10. -/
theorem c9_zero_base_dramatically_witness :
    summaryPercentChange 0 10 = PFloat.posInf ∧
    magnitude (summaryPercentChange 0 10) = "dramatically" := by
  exact c9_zero_base_dramatically 0 10 rfl (by norm_num)

/-- Claim C4: for a finite percent change p the magnitude classification is
slightly exactly when abs p < 10, moderately exactly when 10 <= abs p < 30,
significantly exactly when 30 <= abs p < 50, and dramatically exactly when
abs p >= 50; in particular 9.99 is slightly, 10.0 and 29.99 are moderately,
30.0 and 49.99 are significantly, and 50.0 is dramatically. -/
theorem c4_magnitude_boundaries (p : ℚ) :
    (magnitude (PFloat.finite p) = "slightly" ↔ |p| < 10) ∧
    (magnitude (PFloat.finite p) = "moderately" ↔ 10 ≤ |p| ∧ |p| < 30) ∧
    (magnitude (PFloat.finite p) = "significantly" ↔ 30 ≤ |p| ∧ |p| < 50) ∧
    (magnitude (PFloat.finite p) = "dramatically" ↔ 50 ≤ |p|) ∧
    magnitude (PFloat.finite (999/100)) = "slightly" ∧
    magnitude (PFloat.finite 10) = "moderately" ∧
    magnitude (PFloat.finite (2999/100)) = "moderately" ∧
    magnitude (PFloat.finite 30) = "significantly" ∧
    magnitude (PFloat.finite (4999/100)) = "significantly" ∧
    magnitude (PFloat.finite 50) = "dramatically" := by
  have e1 : magnitude (PFloat.finite (999/100)) = "slightly" := by
    rw [magnitude_finite, abs_of_nonneg (by norm_num : (0:ℚ) ≤ 999/100),
      if_pos (by norm_num)]
  have e2 : magnitude (PFloat.finite 10) = "moderately" := by
    rw [magnitude_finite, abs_of_nonneg (by norm_num : (0:ℚ) ≤ 10),
      if_neg (by norm_num), if_pos (by norm_num)]
  have e3 : magnitude (PFloat.finite (2999/100)) = "moderately" := by
    rw [magnitude_finite, abs_of_nonneg (by norm_num : (0:ℚ) ≤ 2999/100),
      if_neg (by norm_num), if_pos (by norm_num)]
  have e4 : magnitude (PFloat.finite 30) = "significantly" := by
    rw [magnitude_finite, abs_of_nonneg (by norm_num : (0:ℚ) ≤ 30),
      if_neg (by norm_num), if_neg (by norm_num), if_pos (by norm_num)]
  have e5 : magnitude (PFloat.finite (4999/100)) = "significantly" := by
    rw [magnitude_finite, abs_of_nonneg (by norm_num : (0:ℚ) ≤ 4999/100),
      if_neg (by norm_num), if_neg (by norm_num), if_pos (by norm_num)]
  have e6 : magnitude (PFloat.finite 50) = "dramatically" := by
    rw [magnitude_finite, abs_of_nonneg (by norm_num : (0:ℚ) ≤ 50),
      if_neg (by norm_num), if_neg (by norm_num), if_neg (by norm_num)]
  refine ⟨?_, ?_, ?_, ?_, e1, e2, e3, e4, e5, e6⟩ <;> rw [magnitude_finite]
  · split_ifs with h1 h2 h3
    · exact iff_of_true rfl h1
    · exact iff_of_false (by decide) h1
    · exact iff_of_false (by decide) h1
    · exact iff_of_false (by decide) h1
  · split_ifs with h1 h2 h3
    · exact iff_of_false (by decide) (by push_neg; intro h; linarith)
    · exact iff_of_true rfl ⟨not_lt.mp h1, h2⟩
    · exact iff_of_false (by decide) (by push_neg; intro h; linarith [not_lt.mp h2])
    · exact iff_of_false (by decide) (by push_neg; intro h; linarith [not_lt.mp h2])
  · split_ifs with h1 h2 h3
    · exact iff_of_false (by decide) (by push_neg; intro h; linarith)
    · exact iff_of_false (by decide) (by push_neg; intro h; linarith)
    · exact iff_of_true rfl ⟨not_lt.mp h2, h3⟩
    · exact iff_of_false (by decide) (by push_neg; intro h; linarith [not_lt.mp h3])
  · split_ifs with h1 h2 h3
    · exact iff_of_false (by decide) (by push_neg; linarith)
    · exact iff_of_false (by decide) (by push_neg; linarith)
    · exact iff_of_false (by decide) (by push_neg; linarith)
    · exact iff_of_true rfl (not_lt.mp h3)

/-- Witness for C4 at the concrete finite percent change 7: classified
slightly via the boundary characterization. -/
theorem c4_magnitude_boundaries_witness :
    magnitude (PFloat.finite 7) = "slightly" :=
  (c4_magnitude_boundaries 7).1.mpr (by rw [abs_of_nonneg] <;> norm_num)

/-! CSV comparison pipeline of compare_csv_data (src/streamlit_app.py:122-150).
A CSV table is a list of (tag, count) pairs, one per row, the two required
columns Event Tag (IF) and Event Count.  groupby(tag).sum() aggregates the
rows of one table per tag; the outer merge produces one row per tag of
either table, and fillna(0) makes a missing side contribute 0.  The claims
settled against this pipeline are about the tag set and the per-tag values,
not about row order, so the embedding keeps keys in occurrence order while
pandas orders groups alphabetically. -/

/-- One row of the merged comparison table: tag, aggregated period-1 count,
aggregated period-2 count (both already fillna(0)-defaulted). -/
structure MergedRow where
  tag : String
  c1 : ℚ
  c2 : ℚ
deriving DecidableEq

/-- Aggregated count of one tag in one table: the sum of the Event Count
entries of all rows carrying that tag, as computed by
groupby(Event Tag)(Event Count).sum(); a tag with no row sums to 0, which
is exactly the value fillna(0) gives the missing side after the merge. -/
def aggCount (l : List (String × ℚ)) (t : String) : ℚ :=
  ((l.filter fun p => decide (p.1 = t)).map Prod.snd).sum

/-- The distinct tags of a list of keys (the index of groupby). -/
def uniqKeys : List String → List String
  | [] => []
  | t :: rest => if t ∈ rest then uniqKeys rest else t :: uniqKeys rest

/-- Key list of an outer merge: every key of the left table plus the keys
appearing only in the right table. -/
def mergeKeys (kA kB : List String) : List String :=
  kA ++ kB.filter fun t => decide (t ∉ kA)

/-- The merged comparison table of compare_csv_data: one row per tag of the
outer join, carrying the per-tag aggregated counts of both periods. -/
def mergedRows (A B : List (String × ℚ)) : List MergedRow :=
  (mergeKeys (uniqKeys (A.map Prod.fst)) (uniqKeys (B.map Prod.fst))).map
    fun t => ⟨t, aggCount A t, aggCount B t⟩

/-- Float comparison p > 0 as applied by pandas to the percent_change
column: true for +inf, false for -inf and NaN. -/
def pGt0 : PFloat → Bool
  | .finite q => decide (0 < q)
  | .posInf => true
  | .negInf => false
  | .nan => false

/-- Float comparison p < 0 on the percent_change column. -/
def pLt0 : PFloat → Bool
  | .finite q => decide (q < 0)
  | .posInf => false
  | .negInf => true
  | .nan => false

/-- Float comparison p == 0 on the percent_change column (NaN compares
unequal to everything). -/
def pEq0 : PFloat → Bool
  | .finite q => decide (q = 0)
  | _ => false

/-- Number of categories reported as increased
(src/streamlit_app.py:147): rows whose percent_change is > 0. -/
def increasedCount (rows : List MergedRow) : Nat :=
  (rows.filter fun r => pGt0 (pandasPercentChange r.c1 r.c2)).length

/-- Number of categories reported as decreased
(src/streamlit_app.py:148): rows whose percent_change is < 0. -/
def decreasedCount (rows : List MergedRow) : Nat :=
  (rows.filter fun r => pLt0 (pandasPercentChange r.c1 r.c2)).length

/-- Number of categories reported as unchanged
(src/streamlit_app.py:149): rows whose percent_change is == 0. -/
def unchangedCount (rows : List MergedRow) : Nat :=
  (rows.filter fun r => pEq0 (pandasPercentChange r.c1 r.c2)).length

/-- Overall percent change of the comparison summary
(src/streamlit_app.py:143-144): computed over the column sums of the merged
table, with no fillna applied to the scalar result. -/
def totalPercentChange (rows : List MergedRow) : PFloat :=
  mul100F (qdivF ((rows.map MergedRow.c2).sum - (rows.map MergedRow.c1).sum)
    ((rows.map MergedRow.c1).sum))

lemma pandasPercentChange_pos_base (c1 c2 : ℚ) (h : c1 ≠ 0) :
    pandasPercentChange c1 c2 = PFloat.finite ((c2 - c1) / c1 * 100) := by
  simp [pandasPercentChange, qdivF, h, mul100F, fillna0]

lemma pandas_sign_matches_abs_change (c1 c2 : ℚ) (h1 : 0 ≤ c1) (h2 : 0 ≤ c2) :
    pGt0 (pandasPercentChange c1 c2) = decide (c1 < c2) ∧
    pLt0 (pandasPercentChange c1 c2) = decide (c2 < c1) ∧
    pEq0 (pandasPercentChange c1 c2) = decide (c1 = c2) := by
  by_cases hc : c1 = 0
  · subst hc
    by_cases h0 : c2 = 0
    · subst h0
      simp [pandasPercentChange, qdivF, mul100F, fillna0, pGt0, pLt0, pEq0]
    · have hpos : 0 < c2 := lt_of_le_of_ne h2 (Ne.symm h0)
      have hinf : pandasPercentChange 0 c2 = PFloat.posInf := by
        simp [pandasPercentChange, qdivF, hpos, mul100F, fillna0]
      rw [hinf]
      refine ⟨?_, ?_, ?_⟩
      · simp [pGt0, hpos]
      · simp only [pLt0]
        exact (decide_eq_false_iff_not.mpr (not_lt.mpr h2)).symm
      · simp only [pEq0]
        exact (decide_eq_false_iff_not.mpr (fun h => h0 h.symm)).symm
  · have hcpos : 0 < c1 := lt_of_le_of_ne h1 (Ne.symm hc)
    rw [pandasPercentChange_pos_base c1 c2 hc]
    have hk : (0:ℚ) < 100 / c1 := by positivity
    have hrw : (c2 - c1) / c1 * 100 = (c2 - c1) * (100 / c1) := by ring
    refine ⟨?_, ?_, ?_⟩
    · show decide (0 < (c2 - c1) / c1 * 100) = decide (c1 < c2)
      rw [decide_eq_decide, hrw]
      rw [mul_pos_iff_of_pos_right hk, sub_pos]
    · show decide ((c2 - c1) / c1 * 100 < 0) = decide (c2 < c1)
      rw [decide_eq_decide, hrw]
      rw [← neg_pos, ← neg_mul, mul_pos_iff_of_pos_right hk, neg_pos, sub_neg]
    · show decide ((c2 - c1) / c1 * 100 = 0) = decide (c1 = c2)
      rw [decide_eq_decide, hrw, mul_eq_zero]
      constructor
      · rintro (h | h)
        · exact (sub_eq_zero.mp h).symm
        · exact absurd h (ne_of_gt hk)
      · intro h; exact Or.inl (by rw [h, sub_self])

lemma three_way_filter_split (rows : List MergedRow) :
    (rows.filter fun r => decide (r.c1 < r.c2)).length +
    (rows.filter fun r => decide (r.c2 < r.c1)).length +
    (rows.filter fun r => decide (r.c1 = r.c2)).length = rows.length := by
  induction rows with
  | nil => simp
  | cons r rest ih =>
    rcases lt_trichotomy r.c1 r.c2 with h | h | h
    · have hne : ¬ r.c2 < r.c1 := not_lt.mpr (le_of_lt h)
      have heq : ¬ r.c1 = r.c2 := ne_of_lt h
      simp [List.filter_cons, h, hne, heq]
      omega
    · have hlt : ¬ r.c1 < r.c2 := by rw [h]; exact lt_irrefl _
      have hgt : ¬ r.c2 < r.c1 := by rw [h]; exact lt_irrefl _
      simp [List.filter_cons, hlt, hgt, h]
      omega
    · have hlt : ¬ r.c1 < r.c2 := not_lt.mpr (le_of_lt h)
      have heq : ¬ r.c1 = r.c2 := ne_of_gt h
      simp [List.filter_cons, h, hlt, heq]
      omega

lemma aggCount_nonneg (l : List (String × ℚ)) (hl : ∀ p ∈ l, 0 ≤ p.2)
    (t : String) : 0 ≤ aggCount l t := by
  refine List.sum_nonneg ?_
  intro q hq
  rcases List.mem_map.mp hq with ⟨p, hp, rfl⟩
  exact hl p (List.mem_of_mem_filter hp)

lemma mergedRows_nonneg (A B : List (String × ℚ))
    (hA : ∀ p ∈ A, 0 ≤ p.2) (hB : ∀ p ∈ B, 0 ≤ p.2) :
    ∀ r ∈ mergedRows A B, 0 ≤ r.c1 ∧ 0 ≤ r.c2 := by
  intro r hr
  rcases List.mem_map.mp hr with ⟨t, _, rfl⟩
  exact ⟨aggCount_nonneg A hA t, aggCount_nonneg B hB t⟩

/-- Claim C5: for input tables with non-negative counts, the increased,
decreased and unchanged counts of the overall summary are the numbers of
rows whose absoluteChange (count2 - count1) is positive, negative and zero
respectively, so they partition all rows; and when the period-1 column sum
is nonzero, totalPercentChange is the finite value
(sum count2 - sum count1) / (sum count1) * 100. -/
theorem c5_summary_totals (A B : List (String × ℚ))
    (hA : ∀ p ∈ A, 0 ≤ p.2) (hB : ∀ p ∈ B, 0 ≤ p.2) :
    increasedCount (mergedRows A B) =
      ((mergedRows A B).filter fun r => decide (r.c1 < r.c2)).length ∧
    decreasedCount (mergedRows A B) =
      ((mergedRows A B).filter fun r => decide (r.c2 < r.c1)).length ∧
    unchangedCount (mergedRows A B) =
      ((mergedRows A B).filter fun r => decide (r.c1 = r.c2)).length ∧
    increasedCount (mergedRows A B) + decreasedCount (mergedRows A B) +
      unchangedCount (mergedRows A B) = (mergedRows A B).length ∧
    (((mergedRows A B).map MergedRow.c1).sum ≠ 0 →
      totalPercentChange (mergedRows A B) =
        PFloat.finite ((((mergedRows A B).map MergedRow.c2).sum -
          ((mergedRows A B).map MergedRow.c1).sum) /
          ((mergedRows A B).map MergedRow.c1).sum * 100)) := by
  have hnn := mergedRows_nonneg A B hA hB
  have hinc : increasedCount (mergedRows A B) =
      ((mergedRows A B).filter fun r => decide (r.c1 < r.c2)).length := by
    unfold increasedCount
    congr 1
    refine List.filter_congr ?_
    intro r hr
    exact (pandas_sign_matches_abs_change r.c1 r.c2 (hnn r hr).1 (hnn r hr).2).1
  have hdec : decreasedCount (mergedRows A B) =
      ((mergedRows A B).filter fun r => decide (r.c2 < r.c1)).length := by
    unfold decreasedCount
    congr 1
    refine List.filter_congr ?_
    intro r hr
    exact (pandas_sign_matches_abs_change r.c1 r.c2 (hnn r hr).1 (hnn r hr).2).2.1
  have hunch : unchangedCount (mergedRows A B) =
      ((mergedRows A B).filter fun r => decide (r.c1 = r.c2)).length := by
    unfold unchangedCount
    congr 1
    refine List.filter_congr ?_
    intro r hr
    exact (pandas_sign_matches_abs_change r.c1 r.c2 (hnn r hr).1 (hnn r hr).2).2.2
  refine ⟨hinc, hdec, hunch, ?_, ?_⟩
  · rw [hinc, hdec, hunch]
    exact three_way_filter_split (mergedRows A B)
  · intro hs
    simp [totalPercentChange, qdivF, hs, mul100F]

/-- Witness for C5 at tables giving the merged rows (10, 20) and (5, 5) of
the specification: one increased, none decreased, one unchanged, and a
total percent change of (25 - 15) / 15 * 100 = 200 / 3. -/
theorem c5_summary_totals_witness :
    increasedCount (mergedRows [("x", 10), ("y", 5)] [("x", 20), ("y", 5)]) =
      ((mergedRows [("x", 10), ("y", 5)] [("x", 20), ("y", 5)]).filter
        fun r => decide (r.c1 < r.c2)).length ∧
    increasedCount (mergedRows [("x", 10), ("y", 5)] [("x", 20), ("y", 5)]) = 1 ∧
    decreasedCount (mergedRows [("x", 10), ("y", 5)] [("x", 20), ("y", 5)]) = 0 ∧
    unchangedCount (mergedRows [("x", 10), ("y", 5)] [("x", 20), ("y", 5)]) = 1 ∧
    totalPercentChange (mergedRows [("x", 10), ("y", 5)] [("x", 20), ("y", 5)]) =
      PFloat.finite (200 / 3) ∧
    (200 : ℚ) / 3 = (25 - 15) / 15 * 100 := by
  have h := c5_summary_totals [("x", 10), ("y", 5)] [("x", 20), ("y", 5)]
    (by intro p hp; fin_cases hp <;> norm_num)
    (by intro p hp; fin_cases hp <;> norm_num)
  refine ⟨h.1, ?_, ?_, ?_, ?_, by norm_num⟩ <;>
    simp [increasedCount, decreasedCount, unchangedCount, totalPercentChange,
      mergedRows, mergeKeys, uniqKeys, aggCount, pandasPercentChange, qdivF,
      mul100F, fillna0, pGt0, pLt0, pEq0, List.filter_cons] <;>
    norm_num

lemma mem_uniqKeys (t : String) (l : List String) : t ∈ uniqKeys l ↔ t ∈ l := by
  induction l with
  | nil => simp [uniqKeys]
  | cons a rest ih =>
    by_cases ha : a ∈ rest
    · simp [uniqKeys, ha, ih]
      intro h; rw [h]; exact ha
    · simp [uniqKeys, ha, ih]

lemma mem_mergeKeys (t : String) (kA kB : List String) :
    t ∈ mergeKeys kA kB ↔ t ∈ kA ∨ t ∈ kB := by
  simp only [mergeKeys, List.mem_append, List.mem_filter]
  constructor
  · rintro (h | ⟨h, _⟩)
    · exact Or.inl h
    · exact Or.inr h
  · intro h
    by_cases hA : t ∈ kA
    · exact Or.inl hA
    · rcases h with h | h
      · exact absurd h hA
      · exact Or.inr ⟨h, by simpa using hA⟩

lemma aggCount_of_not_mem (l : List (String × ℚ)) (t : String)
    (h : t ∉ l.map Prod.fst) : aggCount l t = 0 := by
  have : l.filter (fun p => decide (p.1 = t)) = [] := by
    rw [List.filter_eq_nil_iff]
    intro p hp
    simp only [decide_eq_true_eq]
    intro hpt
    exact h (List.mem_map.mpr ⟨p, hp, hpt⟩)
  simp [aggCount, this]

/-- Claim C6: the tag set of the merged comparison table is exactly the
union of the tags of the two input tables; every merged row carries the
per-tag aggregated (summed) counts of both tables; and a tag absent from
one table contributes 0 on that side. -/
theorem c6_outer_join_union (A B : List (String × ℚ)) (t : String) :
    (t ∈ (mergedRows A B).map MergedRow.tag ↔
      t ∈ A.map Prod.fst ∨ t ∈ B.map Prod.fst) ∧
    (∀ r ∈ mergedRows A B, r.c1 = aggCount A r.tag ∧ r.c2 = aggCount B r.tag) ∧
    (t ∉ A.map Prod.fst → aggCount A t = 0) ∧
    (t ∉ B.map Prod.fst → aggCount B t = 0) := by
  refine ⟨?_, ?_, aggCount_of_not_mem A t, aggCount_of_not_mem B t⟩
  · have hmap : (mergedRows A B).map MergedRow.tag =
        mergeKeys (uniqKeys (A.map Prod.fst)) (uniqKeys (B.map Prod.fst)) := by
      rw [mergedRows, List.map_map]
      have hc : (MergedRow.tag ∘ fun t =>
          (⟨t, aggCount A t, aggCount B t⟩ : MergedRow)) = id := rfl
      rw [hc, List.map_id]
    rw [hmap, mem_mergeKeys, mem_uniqKeys, mem_uniqKeys]
  · intro r hr
    rcases List.mem_map.mp hr with ⟨s, _, rfl⟩
    exact ⟨rfl, rfl⟩

/-- Witness for C6 at the concrete tables of the specification: file A with
rows (Login, 10), (Login, 5), (Signup, 3) and file B with rows (Login, 20),
(Checkout, 4) merge to the tag set Login, Signup, Checkout, with Login
aggregated to 15 on side A and the missing sides of Signup and Checkout
equal to 0. -/
theorem c6_outer_join_union_witness :
    ("Checkout" ∈ (mergedRows [("Login", 10), ("Login", 5), ("Signup", 3)]
        [("Login", 20), ("Checkout", 4)]).map MergedRow.tag ↔
      "Checkout" ∈ ([("Login", 10), ("Login", 5), ("Signup", 3)] :
        List (String × ℚ)).map Prod.fst ∨
      "Checkout" ∈ ([("Login", 20), ("Checkout", 4)] :
        List (String × ℚ)).map Prod.fst) ∧
    aggCount [("Login", 10), ("Login", 5), ("Signup", 3)] "Checkout" = 0 ∧
    mergedRows [("Login", 10), ("Login", 5), ("Signup", 3)]
        [("Login", 20), ("Checkout", 4)] =
      [⟨"Login", 15, 20⟩, ⟨"Signup", 3, 0⟩, ⟨"Checkout", 0, 4⟩] := by
  have h := c6_outer_join_union [("Login", 10), ("Login", 5), ("Signup", 3)]
    [("Login", 20), ("Checkout", 4)] "Checkout"
  refine ⟨h.1, h.2.2.1 (by decide), ?_⟩
  simp [mergedRows, mergeKeys, uniqKeys, aggCount, List.filter_cons]
  norm_num

/-! Event-table normalizer fetch_event_data (src/streamlit_app.py:25-75):
the JSON array returned by the analytics API is turned into a table with
columns Event Name, Event Count, Events With Value, Total Event Value,
sorted by Event Count descending, and the three numeric columns are then
coerced to int. -/

/-- One entry of the JSON array returned by the analytics API: either not a
JSON object, skipped by the isinstance check at line 50, or an object whose
relevant fields may each be absent, with dict.get supplying the defaults.
Field values are modelled as rationals; a non-numeric string field is
outside the model, since sorting a mixed-type column raises in pandas
before pd.to_numeric could coerce it. -/
inductive RawEntry where
  | nonRecord
  | record (label : Option String) (nbEvents : Option ℚ)
      (nbEventsWithValue : Option ℚ) (sumEventValue : Option ℚ)

/-- One row of the dataframe built at lines 51-57, before numeric coercion:
the four column values with the dict.get defaults (empty string and 0)
applied. -/
structure EventRecord where
  name : String
  count : ℚ
  countWithValue : ℚ
  totalValue : ℚ
deriving DecidableEq

/-- Lines 49-57: one raw entry becomes one row when it is a dict, and is
skipped silently otherwise. -/
def rawToRecord : RawEntry → Option EventRecord
  | .nonRecord => none
  | .record label nb nbv sv =>
      some ⟨label.getD "", nb.getD 0, nbv.getD 0, sv.getD 0⟩

/-- Line 63, df.sort_values(Event Count, ascending=False).  Pandas nargsort
argsorts the column ascending and then reverses the indexer; the default
kind=quicksort is numpy introsort, which runs plain stable insertion sort
on arrays below its partition threshold, as in every concrete case
considered here.  The embedding therefore models the sort as a stable
ascending insertion sort followed by a reversal; consequently rows with
equal counts end up in reversed input order, not in input order. -/
def sortDesc (l : List EventRecord) : List EventRecord :=
  (List.insertionSort (fun a b => a.count ≤ b.count) l).reverse

instance : IsTotal EventRecord (fun a b => a.count ≤ b.count) :=
  ⟨fun a b => le_total a.count b.count⟩

instance : IsTrans EventRecord (fun a b => a.count ≤ b.count) :=
  ⟨fun _ _ _ h1 h2 => le_trans h1 h2⟩

/-- One row of the returned dataframe after the numeric coercion of lines
66-68: all three numeric columns hold integers. -/
structure EventRow where
  name : String
  count : ℤ
  countWithValue : ℤ
  totalValue : ℤ
deriving DecidableEq

/-- astype(int) on one cell: numpy casts float64 to int64 by truncation
toward zero. -/
def truncQ (q : ℚ) : ℤ := if q < 0 then ⌈q⌉ else ⌊q⌋

/-- Numeric coercion of one row (lines 66-68): pd.to_numeric is the
identity on the already-numeric model values, fillna(0) has nothing to
fill, and astype(int) truncates each of the three numeric columns. -/
def coerceRow (r : EventRecord) : EventRow :=
  ⟨r.name, truncQ r.count, truncQ r.countWithValue, truncQ r.totalValue⟩

/-- fetch_event_data (lines 25-75): build one record per dict entry, and
when the resulting frame is non-empty sort it by Event Count descending
and coerce the numeric columns to int; an empty frame is returned as is. -/
def fetch_event_data (raw : List RawEntry) : List EventRow :=
  let recs := raw.filterMap rawToRecord
  if recs.isEmpty then [] else (sortDesc recs).map coerceRow

lemma truncQ_mono {a b : ℚ} (h : a ≤ b) : truncQ a ≤ truncQ b := by
  unfold truncQ
  by_cases ha : a < 0 <;> by_cases hb : b < 0 <;> simp only [ha, hb, if_true, if_false]
  · exact Int.ceil_mono h
  · calc ⌈a⌉ ≤ 0 := Int.ceil_le.mpr (by exact_mod_cast le_of_lt ha)
      _ ≤ ⌊b⌋ := Int.floor_nonneg.mpr (not_lt.mp hb)
  · exact absurd (lt_of_le_of_lt h hb) ha
  · exact Int.floor_mono h

lemma sortDesc_pairwise (l : List EventRecord) :
    List.Pairwise (fun a b => b.count ≤ a.count) (sortDesc l) := by
  rw [sortDesc, List.pairwise_reverse]
  exact List.sorted_insertionSort (fun a b => a.count ≤ b.count) l

/-- Counterexample to claim C7 as stated: two raw records named a and b,
in that input order, with the same count 7, come out of the normalizer in
the order b, a — pandas reverses the ascending argsort, so rows with equal
counts do not keep their relative input order. -/
theorem c7_tie_order_counterexample :
    (fetch_event_data
        [RawEntry.record (some "a") (some 7) none none,
         RawEntry.record (some "b") (some 7) none none]).map EventRow.name =
      ["b", "a"] ∧ (["b", "a"] : List String) ≠ ["a", "b"] := by
  constructor
  · norm_num [fetch_event_data, rawToRecord, sortDesc, coerceRow,
      List.insertionSort, List.orderedInsert, Option.some_ne_none]
  · decide

/-- Claim C7 as amended: the normalizer output is sorted by count
descending for every input, and for the input counts 5, 20, 1 the output
count order is 20, 5, 1; rows with equal counts appear in reversed (not
preserved) relative input order, as the counterexample shows. -/
theorem c7_sorted_descending (raw : List RawEntry) :
    List.Pairwise (fun a b => b.count ≤ a.count) (fetch_event_data raw) ∧
    (fetch_event_data
        [RawEntry.record (some "u") (some 5) none none,
         RawEntry.record (some "v") (some 20) none none,
         RawEntry.record (some "w") (some 1) none none]).map EventRow.count =
      [20, 5, 1] := by
  constructor
  · unfold fetch_event_data
    by_cases h : (raw.filterMap rawToRecord).isEmpty
    · simp [h]
    · simp only [h, if_false]
      exact (sortDesc_pairwise (raw.filterMap rawToRecord)).map coerceRow
        (fun a b hab => truncQ_mono hab)
  · norm_num [fetch_event_data, rawToRecord, sortDesc, coerceRow,
      List.insertionSort, List.orderedInsert, truncQ, Option.some_ne_none]

/-- Witness for C7 as amended, at the concrete three-record input of the
specification: its normalized output is pairwise sorted by count
descending. -/
theorem c7_sorted_descending_witness :
    List.Pairwise (fun a b => b.count ≤ a.count)
      (fetch_event_data
        [RawEntry.record (some "u") (some 5) none none,
         RawEntry.record (some "v") (some 20) none none,
         RawEntry.record (some "w") (some 1) none none]) :=
  (c7_sorted_descending
    [RawEntry.record (some "u") (some 5) none none,
     RawEntry.record (some "v") (some 20) none none,
     RawEntry.record (some "w") (some 1) none none]).1

/-- Claim C10: every one of the three numeric output columns of the
normalizer is the toward-zero integer truncation of the corresponding raw
value, and in particular a fractional sum_event_value of 5/2 comes out as
the integer 2, not as the number 5/2. -/
theorem c10_numeric_columns_truncated (raw : List RawEntry) :
    (fetch_event_data raw).map EventRow.count =
      (sortDesc (raw.filterMap rawToRecord)).map (fun s => truncQ s.count) ∧
    (fetch_event_data raw).map EventRow.countWithValue =
      (sortDesc (raw.filterMap rawToRecord)).map
        (fun s => truncQ s.countWithValue) ∧
    (fetch_event_data raw).map EventRow.totalValue =
      (sortDesc (raw.filterMap rawToRecord)).map (fun s => truncQ s.totalValue) ∧
    truncQ (5/2) = 2 ∧
    ((truncQ (5/2) : ℚ) ≠ 5/2) ∧
    fetch_event_data
        [RawEntry.record (some "x") (some 1) (some 1) (some (5/2))] =
      [⟨"x", 1, 1, 2⟩] := by
  have htr : truncQ (5/2) = 2 := by
    rw [truncQ, if_neg (by norm_num)]
    norm_num
  have htr1 : truncQ 1 = 1 := by
    rw [truncQ, if_neg (by norm_num)]
    exact Int.floor_one
  have hgen : ∀ (f : EventRow → ℤ) (g : EventRecord → ℚ),
      (∀ s, f (coerceRow s) = truncQ (g s)) →
      (fetch_event_data raw).map f =
        (sortDesc (raw.filterMap rawToRecord)).map (fun s => truncQ (g s)) := by
    intro f g hf
    unfold fetch_event_data
    by_cases h : (raw.filterMap rawToRecord).isEmpty
    · rw [List.isEmpty_iff.mp h]
      simp [sortDesc]
    · simp [h, List.map_map, Function.comp_def, hf]
  refine ⟨hgen EventRow.count EventRecord.count (fun s => rfl),
    hgen EventRow.countWithValue EventRecord.countWithValue (fun s => rfl),
    hgen EventRow.totalValue EventRecord.totalValue (fun s => rfl),
    htr, ?_, ?_⟩
  · rw [htr]; norm_num
  · norm_num [fetch_event_data, rawToRecord, sortDesc, coerceRow,
      List.insertionSort, List.orderedInsert, htr, htr1, Option.some_ne_none]

/-- Witness for C10 at the concrete fractional value 5/2: truncated to the
integer 2. -/
theorem c10_numeric_columns_truncated_witness : truncQ (5/2) = 2 :=
  (c10_numeric_columns_truncated []).2.2.2.1

/-! Report store (src/streamlit_app.py:247-371).  The persisted file
reports.json holds one JSON array of report objects; load_reports returns
the parsed document unvalidated and save_reports rewrites the whole file
with json.dump.  The file state is modelled at the level of the parsed
document, a list of report records, with the json.dump / json.load text
round trip of the standard library taken as the identity on such
documents; a missing file is the None state. -/

/-- One stored screenshot: the uploaded filename and the base64 text of
the image bytes (lines 297-306). -/
structure Screenshot where
  name : String
  data : String
deriving DecidableEq

/-- One report record as built at lines 311-319: date string, title, the
four free-text sections, and the screenshot list. -/
structure ReportRecord where
  date : String
  title : String
  findings : String
  observations : String
  recommendations : String
  conclusion : String
  screenshots : List Screenshot
deriving DecidableEq

/-- load_reports (lines 247-253): return the parsed file content, or an
empty list when the file does not exist. -/
def load_reports (file : Option (List ReportRecord)) : List ReportRecord :=
  file.getD []

/-- save_reports (lines 255-258): overwrite the file with the full
serialized report list. -/
def save_reports (reports : List ReportRecord) : Option (List ReportRecord) :=
  some reports

/-- Claim C8: composing load then save is idempotent — saving a freshly
loaded store and reloading it yields exactly the records of the first
load, and saving again rewrites an identical file. -/
theorem c8_load_save_roundtrip (file : Option (List ReportRecord)) :
    load_reports (save_reports (load_reports file)) = load_reports file ∧
    save_reports (load_reports (save_reports (load_reports file))) =
      save_reports (load_reports file) := by
  cases file <;> exact ⟨rfl, rfl⟩

/-- Witness for C8 at the missing-file state: the round trip yields the
empty record sequence either way. -/
theorem c8_load_save_roundtrip_witness :
    load_reports (save_reports (load_reports none)) = load_reports none :=
  (c8_load_save_roundtrip none).1

/-- In-memory session state plus persisted file, as seen by
documentation_page: st.session_state.reports and reports.json. -/
structure DocState where
  reports : List ReportRecord
  file : Option (List ReportRecord)
deriving DecidableEq

/-- The new_report dict of lines 311-319. -/
def mkReport (date title findings observations recommendations conclusion :
    String) (screenshots : List Screenshot) : ReportRecord :=
  ⟨date, title, findings, observations, recommendations, conclusion,
    screenshots⟩

/-- The save-report branch of documentation_page (lines 309-324): the
Python truthiness test if report_title accepts exactly the non-empty
titles; on success the new record is appended to the session list and the
full list is persisted with save_reports, otherwise an error message is
shown and nothing changes. -/
def appendReport (st : DocState) (date title findings observations
    recommendations conclusion : String) (screenshots : List Screenshot) :
    Except String DocState :=
  if title ≠ "" then
    let reports := st.reports ++
      [mkReport date title findings observations recommendations conclusion
        screenshots]
    .ok ⟨reports, save_reports reports⟩
  else .error "Please provide at least a report title"

/-- Counterexample to claim C3 as stated: the whitespace-only title,
a single space, is non-empty and therefore truthy in Python, so the append
is accepted and the store grows by one record instead of being rejected
with a validation error. -/
theorem c3_whitespace_title_counterexample :
    (" ").toList.all Char.isWhitespace = true ∧
    appendReport ⟨[], none⟩ "2024-01-01" " " "f" "o" "r" "c" [] =
      Except.ok ⟨[mkReport "2024-01-01" " " "f" "o" "r" "c" []],
        some [mkReport "2024-01-01" " " "f" "o" "r" "c" []]⟩ := by
  exact ⟨by decide, rfl⟩

/-- Claim C3 as amended: append rejects exactly the empty title — a
whitespace-only title is accepted like any other non-empty title.  On the
empty title it signals the validation error and produces no new state, so
store and file are unchanged; on every non-empty title it appends exactly
one new ReportRecord at the end of the store and persists the full updated
store via save_reports. -/
theorem c3_append_validation (st : DocState) (date title findings
    observations recommendations conclusion : String)
    (screenshots : List Screenshot) :
    (title = "" →
      appendReport st date title findings observations recommendations
        conclusion screenshots =
        Except.error "Please provide at least a report title") ∧
    (title ≠ "" →
      appendReport st date title findings observations recommendations
        conclusion screenshots =
        Except.ok ⟨st.reports ++
          [mkReport date title findings observations recommendations
            conclusion screenshots],
          save_reports (st.reports ++
            [mkReport date title findings observations recommendations
              conclusion screenshots])⟩) := by
  constructor
  · intro h
    rw [appendReport, if_neg (by simp [h])]
  · intro h
    rw [appendReport, if_pos h]

/-- Witness for C3 as amended, at a concrete empty-title rejection and a
concrete successful append. -/
theorem c3_append_validation_witness :
    appendReport ⟨[], none⟩ "2024-01-01" "" "f" "o" "r" "c" [] =
      Except.error "Please provide at least a report title" ∧
    appendReport ⟨[], none⟩ "2024-01-01" "T" "f" "o" "r" "c" [] =
      Except.ok ⟨[mkReport "2024-01-01" "T" "f" "o" "r" "c" []],
        save_reports [mkReport "2024-01-01" "T" "f" "o" "r" "c" []]⟩ := by
  exact ⟨(c3_append_validation ⟨[], none⟩ "2024-01-01" "" "f" "o" "r" "c" []).1
      rfl,
    (c3_append_validation ⟨[], none⟩ "2024-01-01" "T" "f" "o" "r" "c" []).2
      (by decide)⟩

/-! Markdown export.  documentation_page calls
generate_markdown_report(st.session_state.reports) at line 365, but no
definition of generate_markdown_report exists anywhere in src.  The
renderer below is therefore modelled from the spec rather than translated
from source code. -/

/-- Modelled from the spec: the title/date heading of one report.
generate_markdown_report is missing from src; section 4.3 of the spec
requires the section order title/date, Findings, Observations,
Recommendations, Conclusion, with screenshots referenced by filename
only. -/
def titleDateBlock (r : ReportRecord) : String :=
  "## " ++ r.title ++ " - " ++ r.date ++ "\n\n"

/-- Modelled from the spec: the Findings section of one report. -/
def findingsBlock (r : ReportRecord) : String :=
  "### Findings\n\n" ++ r.findings ++ "\n\n"

/-- Modelled from the spec: the Observations section of one report. -/
def observationsBlock (r : ReportRecord) : String :=
  "### Observations\n\n" ++ r.observations ++ "\n\n"

/-- Modelled from the spec: the Recommendations section of one report. -/
def recommendationsBlock (r : ReportRecord) : String :=
  "### Recommendations\n\n" ++ r.recommendations ++ "\n\n"

/-- Modelled from the spec: the Conclusion section of one report. -/
def conclusionBlock (r : ReportRecord) : String :=
  "### Conclusion\n\n" ++ r.conclusion ++ "\n\n"

/-- Modelled from the spec: the screenshot list of one report, referenced
by filename only — the base64 image data is not re-embedded. -/
def screenshotsBlock (r : ReportRecord) : String :=
  if r.screenshots.isEmpty then ""
  else "### Screenshots\n\n" ++
    String.join (r.screenshots.map fun s => "- " ++ s.name ++ "\n") ++ "\n"

/-- Modelled from the spec: the Markdown rendering of one report, its
sections concatenated in the order required by section 4.3. -/
def reportToMarkdown (r : ReportRecord) : String :=
  titleDateBlock r ++ findingsBlock r ++ observationsBlock r ++
    recommendationsBlock r ++ conclusionBlock r ++ screenshotsBlock r

/-- Modelled from the spec: generate_markdown_report renders the reports
in store order. -/
def generate_markdown_report : List ReportRecord → String
  | [] => ""
  | r :: rest => reportToMarkdown r ++ generate_markdown_report rest

/-- Replace the image data of every screenshot of a report, leaving the
filenames and text sections unchanged; used to state that the export
depends on screenshots only through their filenames. -/
def mapShotData (f : String → String) (r : ReportRecord) : ReportRecord :=
  { r with screenshots := r.screenshots.map fun s => ⟨s.name, f s.data⟩ }

lemma screenshotsBlock_mapShotData (f : String → String) (r : ReportRecord) :
    screenshotsBlock (mapShotData f r) = screenshotsBlock r := by
  unfold screenshotsBlock mapShotData
  cases hs : r.screenshots with
  | nil => simp
  | cons a rest => simp [List.map_map, Function.comp_def]

lemma reportToMarkdown_mapShotData (f : String → String) (r : ReportRecord) :
    reportToMarkdown (mapShotData f r) = reportToMarkdown r := by
  unfold reportToMarkdown
  rw [screenshotsBlock_mapShotData]
  rfl

lemma generate_markdown_report_mapShotData (f : String → String)
    (reports : List ReportRecord) :
    generate_markdown_report (reports.map (mapShotData f)) =
      generate_markdown_report reports := by
  induction reports with
  | nil => rfl
  | cons r rest ih =>
    simp only [List.map_cons, generate_markdown_report, ih,
      reportToMarkdown_mapShotData]

lemma generate_markdown_report_append_one (reports : List ReportRecord)
    (r : ReportRecord) :
    generate_markdown_report (reports ++ [r]) =
      generate_markdown_report reports ++ reportToMarkdown r := by
  induction reports with
  | nil => simp [generate_markdown_report]
  | cons a rest ih =>
    have hc : (a :: rest) ++ [r] = a :: (rest ++ [r]) := rfl
    rw [hc]
    show reportToMarkdown a ++ generate_markdown_report (rest ++ [r]) =
      (reportToMarkdown a ++ generate_markdown_report rest) ++
        reportToMarkdown r
    rw [ih, String.append_assoc]

/-- Claim C1 (spec-modelled, generate_markdown_report is absent from src):
for a non-empty store the Markdown export renders the reports in store
order — appending a report to the store appends exactly its rendering —
each report rendering is the concatenation, in order, of the title/date
heading, Findings, Observations, Recommendations, Conclusion and the
screenshot list; and the export depends on screenshots only through their
filenames: rewriting every image data string arbitrarily leaves the
export unchanged. -/
theorem c1_markdown_export (reports : List ReportRecord)
    (hne : reports ≠ []) :
    (∀ r : ReportRecord,
      generate_markdown_report (reports ++ [r]) =
        generate_markdown_report reports ++ reportToMarkdown r) ∧
    (∀ r : ReportRecord,
      reportToMarkdown r =
        titleDateBlock r ++ findingsBlock r ++ observationsBlock r ++
          recommendationsBlock r ++ conclusionBlock r ++ screenshotsBlock r) ∧
    (∀ f : String → String,
      generate_markdown_report (reports.map (mapShotData f)) =
        generate_markdown_report reports) := by
  refine ⟨fun r => generate_markdown_report_append_one reports r,
    fun r => rfl,
    fun f => generate_markdown_report_mapShotData f reports⟩

/-- Witness for C1 at a concrete one-report store with one screenshot:
the hypothesis of non-emptiness is discharged and the data-independence
conjunct is applied with a rewriting that blanks the image data. -/
theorem c1_markdown_export_witness :
    generate_markdown_report
        ([mkReport "2024-01-01" "T" "f" "o" "r" "c" [⟨"shot.png", "QUJD"⟩]].map
          (mapShotData fun _ => "")) =
      generate_markdown_report
        [mkReport "2024-01-01" "T" "f" "o" "r" "c" [⟨"shot.png", "QUJD"⟩]] := by
  exact (c1_markdown_export
    [mkReport "2024-01-01" "T" "f" "o" "r" "c" [⟨"shot.png", "QUJD"⟩]]
    (by decide)).2.2 (fun _ => "")

end MatomoApp
